import Mathlib

/-!
Shallow embedding of the session-health tracking subsystem of
`wellhealthinc/sentry-javascript`:

* `Session`, `SessionAttributes` and the two-level aggregating
  `SessionFlusher` from `packages/hub/src/session.ts` (first variant);
* the flat time-keyed `SessionFlusher` from
  `packages/hub/src/sessionflusher.ts`, the only variant whose `flush`
  actually drains and dispatches the buffer.

JavaScript runtime conventions are embedded explicitly:

* optional / possibly-`undefined` values are `Option`;
* truthiness tests (`if (x)` on strings / numbers) test non-emptiness
  resp. non-zeroness, embedded by the `jsTruthy*` helpers;
* `Date.now()` and `uuid4()` (from `@sentry/utils`, not part of the
  excerpt) are passed in as explicit `now` / `fresh` parameters;
* object mutation becomes functional record update, and the nested
  aggregation maps become association lists whose order reproduces the
  JavaScript iteration order (ascending for numeric keys, insertion
  order for string keys);
* `logger` calls and transport handoffs become an explicit `Effect`
  list returned next to the new state.
-/

set_option maxRecDepth 4000
set_option maxHeartbeats 1000000

/-- JavaScript truthiness of a string: every non-empty string is truthy. -/
def jsTruthyStr (s : String) : Bool := s != ""

/-- JavaScript truthiness of an optional string (`undefined` and `""` are falsy). -/
def jsTruthyOptStr (o : Option String) : Bool :=
  match o with
  | some s => jsTruthyStr s
  | none => false

/-- JavaScript `a || b` on optional strings: returns `b` verbatim when `a` is falsy. -/
def jsOrStr (a b : Option String) : Option String :=
  if jsTruthyOptStr a then a else b

/-- `SessionStatus` from `packages/types/src/session.ts` (string enum). -/
inductive SessionStatus where
  | Ok
  | Exited
  | Crashed
  | Abnormal
deriving DecidableEq, Repr

/-- Wire value of a `SessionStatus` (the string enum values). -/
def SessionStatus.wire : SessionStatus → String
  | .Ok => "ok"
  | .Exited => "exited"
  | .Crashed => "crashed"
  | .Abnormal => "abnormal"

/-- `SessionMode` from `packages/types/src/session.ts` (string enum). -/
inductive SessionMode where
  | Application
  | Request
deriving DecidableEq, Repr

/-- Wire value of a `SessionMode`. -/
def SessionMode.wire : SessionMode → String
  | .Application => "application"
  | .Request => "request"

/-- Modelled from the spec: the `User` interface (`packages/types/src/user.ts`
is not part of the excerpt).  `Session.update` reads `user.id`, `user.email`,
`user.username` and `user.ip_address`; ids are coerced to strings by the
template literal in `update`, so all four are modelled as optional strings. -/
structure User where
  id : Option String := none
  email : Option String := none
  username : Option String := none
  ip_address : Option String := none
deriving DecidableEq, Repr

/-- `SessionContext` from `packages/types/src/session.ts`: every field optional. -/
structure SessionContext where
  sid : Option String := none
  did : Option String := none
  init : Option Bool := none
  timestamp : Option Nat := none
  started : Option Nat := none
  duration : Option Int := none
  status : Option SessionStatus := none
  release : Option String := none
  environment : Option String := none
  userAgent : Option String := none
  ipAddress : Option String := none
  errors : Option Nat := none
  user : Option User := none
  sessionMode : Option SessionMode := none
deriving DecidableEq, Repr

/-- The `Session` entity of `packages/hub/src/session.ts`.  Timestamps are
epoch milliseconds (`Nat`); `duration` may go negative, hence `Int`. -/
structure Session where
  userAgent : Option String := none
  errors : Nat := 0
  release : Option String := none
  sid : String
  did : Option String := none
  timestamp : Nat
  started : Nat
  duration : Int := 0
  status : SessionStatus := SessionStatus.Ok
  sessionMode : SessionMode := SessionMode.Application
  environment : Option String := none
  ipAddress : Option String := none
  init : Bool := true
deriving DecidableEq, Repr

/-- Field defaults of `new Session()` before the constructor applies a
context: `sid = uuid4()` and `timestamp = started = Date.now()` are passed
in as `sid0` / `now`. -/
def Session.construct (sid0 : String) (now : Nat) : Session :=
  { sid := sid0, timestamp := now, started := now }

/-!
`Session.update` (session.ts lines 40-92) is embedded one source statement
per definition, composed in source order, so that each statement's effect
can be reasoned about in isolation.  `fresh` stands for the `uuid4()` call
in the sid-validation branch, `now` for `Date.now()`.
-/

/-- Lines 41-49: `if (context.user) { ip from user.ip_address; did from
user.id || user.email || user.username unless context.did }`. -/
def updUser (ctx : SessionContext) (s : Session) : Session :=
  match ctx.user with
  | some u =>
    let s :=
      match u.ip_address with
      | some ip => if jsTruthyStr ip then { s with ipAddress := some ip } else s
      | none => s
    if jsTruthyOptStr ctx.did then s
    else { s with did := jsOrStr u.id (jsOrStr u.email u.username) }
  | none => s

/-- Line 51: `this.timestamp = context.timestamp || Date.now()`. -/
def updTimestamp (now : Nat) (ctx : SessionContext) (s : Session) : Session :=
  { s with timestamp := match ctx.timestamp with
                        | some t => if t ≠ 0 then t else now
                        | none => now }

/-- Lines 53-56: `if (context.sid)` — keep a 32-character id, regenerate
otherwise. -/
def updSid (fresh : String) (ctx : SessionContext) (s : Session) : Session :=
  match ctx.sid with
  | some v =>
    if jsTruthyStr v then { s with sid := if v.length = 32 then v else fresh } else s
  | none => s

/-- Lines 57-59: `if (context.init !== undefined)`. -/
def updInit (ctx : SessionContext) (s : Session) : Session :=
  match ctx.init with | some b => { s with init := b } | none => s

/-- Lines 60-62: `if (context.did)` — template-literal coercion to string. -/
def updDid (ctx : SessionContext) (s : Session) : Session :=
  match ctx.did with
  | some d => if jsTruthyStr d then { s with did := some d } else s
  | none => s

/-- Lines 63-65: `if (typeof context.started === 'number')`. -/
def updStarted (ctx : SessionContext) (s : Session) : Session :=
  match ctx.started with | some v => { s with started := v } | none => s

/-- Lines 66-70: explicit duration, else `timestamp - started` over the
just-updated fields. -/
def updDuration (ctx : SessionContext) (s : Session) : Session :=
  match ctx.duration with
  | some d => { s with duration := d }
  | none => { s with duration := (s.timestamp : Int) - (s.started : Int) }

/-- Lines 71-73: `if (context.release)`. -/
def updRelease (ctx : SessionContext) (s : Session) : Session :=
  match ctx.release with
  | some v => if jsTruthyStr v then { s with release := some v } else s
  | none => s

/-- Lines 74-76: `if (context.environment)`. -/
def updEnvironment (ctx : SessionContext) (s : Session) : Session :=
  match ctx.environment with
  | some v => if jsTruthyStr v then { s with environment := some v } else s
  | none => s

/-- Lines 77-79: `if (context.ipAddress)`. -/
def updIpAddress (ctx : SessionContext) (s : Session) : Session :=
  match ctx.ipAddress with
  | some v => if jsTruthyStr v then { s with ipAddress := some v } else s
  | none => s

/-- Lines 80-82: `if (context.userAgent)`. -/
def updUserAgent (ctx : SessionContext) (s : Session) : Session :=
  match ctx.userAgent with
  | some v => if jsTruthyStr v then { s with userAgent := some v } else s
  | none => s

/-- Lines 83-85: `if (typeof context.errors === 'number')`. -/
def updErrors (ctx : SessionContext) (s : Session) : Session :=
  match ctx.errors with | some n => { s with errors := n } | none => s

/-- Lines 86-88: `if (context.status)` — enum values are non-empty strings,
hence always truthy. -/
def updStatus (ctx : SessionContext) (s : Session) : Session :=
  match ctx.status with | some st => { s with status := st } | none => s

/-- Lines 89-91: `if (context.sessionMode)`. -/
def updSessionMode (ctx : SessionContext) (s : Session) : Session :=
  match ctx.sessionMode with | some m => { s with sessionMode := m } | none => s

/-- `Session.update` (session.ts lines 40-92): the statements above composed
in source order. -/
def Session.update (fresh : String) (now : Nat) (s : Session) (ctx : SessionContext) : Session :=
  updSessionMode ctx (updStatus ctx (updErrors ctx (updUserAgent ctx (updIpAddress ctx
    (updEnvironment ctx (updRelease ctx (updDuration ctx (updStarted ctx (updDid ctx
      (updInit ctx (updSid fresh ctx (updTimestamp now ctx (updUser ctx s)))))))))))))

/-- `Session.close` (session.ts lines 95-103). -/
def Session.close (fresh : String) (now : Nat) (s : Session)
    (status : Option SessionStatus) : Session :=
  match status with
  | some st => Session.update fresh now s { status := some st }
  | none =>
    if s.status = SessionStatus.Ok then
      Session.update fresh now s { status := some SessionStatus.Exited }
    else
      Session.update fresh now s {}

/-- `SessionAttributesContext` from `packages/types/src/session.ts`. -/
structure SessionAttributesContext where
  environment : Option String := none
  ipAddress : Option String := none
  release : Option String := none
  userAgent : Option String := none
deriving DecidableEq, Repr

/-- `Session.getSessionAttributes` (session.ts lines 106-123): release and
environment always, user info (ip / user agent) only when `withUserInfo`. -/
def Session.getSessionAttributes (s : Session) (withUserInfo : Bool) : SessionAttributesContext :=
  let attrs : SessionAttributesContext := {}
  let attrs := { attrs with release := s.release }
  let attrs := { attrs with environment := s.environment }
  if withUserInfo then
    { attrs with ipAddress := s.ipAddress, userAgent := s.userAgent }
  else
    attrs

/-- `new Date(t).setMinutes(0, 0, 0)` on an epoch-millisecond timestamp in an
hour-aligned time zone (UTC): zeroes minutes, seconds and milliseconds,
truncating to the enclosing hour window. -/
def dateSetMinutes0 (t : Nat) : Nat := t - t % 3600000

/-- Zero-pad a number below 100 to two digits. -/
def pad2 (n : Nat) : String := if n < 10 then "0" ++ toString n else toString n

/-- Zero-pad a number below 1000 to three digits. -/
def pad3 (n : Nat) : String :=
  if n < 10 then "00" ++ toString n else if n < 100 then "0" ++ toString n else toString n

/-- Zero-pad a year below 10000 to four digits. -/
def pad4 (n : Nat) : String :=
  if n < 10 then "000" ++ toString n
  else if n < 100 then "00" ++ toString n
  else if n < 1000 then "0" ++ toString n
  else toString n

/-- Gregorian date from a day count since 1970-01-01 (civil-from-days,
closed form, no recursion). -/
def civilFromDays (z0 : Nat) : Nat × Nat × Nat :=
  let z := z0 + 719468
  let era := z / 146097
  let doe := z % 146097
  let yoe := (doe - doe / 1460 + doe / 36524 - doe / 146096) / 365
  let y := yoe + era * 400
  let doy := doe - (365 * yoe + yoe / 4 - yoe / 100)
  let mp := (5 * doy + 2) / 153
  let d := doy - (153 * mp + 2) / 5 + 1
  let m := if mp < 10 then mp + 3 else mp - 9
  let y := if m ≤ 2 then y + 1 else y
  (y, m, d)

/-- `new Date(t).toISOString()` for an epoch-millisecond timestamp in the
standard four-digit-year range: `YYYY-MM-DDTHH:MM:SS.mmmZ`. -/
def toISOString (t : Nat) : String :=
  let ms := t % 1000
  let ts := t / 1000
  let ss := ts % 60
  let tm := ts / 60
  let mi := tm % 60
  let th := tm / 60
  let hh := th % 24
  let days := th / 24
  let ymd := civilFromDays days
  pad4 ymd.1 ++ "-" ++ pad2 ymd.2.1 ++ "-" ++ pad2 ymd.2.2 ++ "T" ++
    pad2 hh ++ ":" ++ pad2 mi ++ ":" ++ pad2 ss ++ "." ++ pad3 ms ++ "Z"

/-- A JSON value, for the wire records produced by `toJSON`.  A field that is
absent is *not* represented (its key is dropped); `null` exists in the model
precisely so that "omitted, not emitted as null" is expressible. -/
inductive JVal where
  | null
  | str (s : String)
  | num (n : Int)
  | bool (b : Bool)
  | obj (fields : List (String × JVal))

/-- Modelled from the spec: `dropUndefinedKeys` of `@sentry/utils` (the utils
package is not part of the excerpt) — "omits any field whose value is
absent": returns the object without the keys whose value is `undefined`,
preserving field order. -/
def dropUndefinedKeys (l : List (String × Option JVal)) : List (String × JVal) :=
  l.filterMap fun p => match p.2 with | some v => some (p.1, v) | none => none

/-- `Session.toJSON` (session.ts lines 126-160): the wire record, with wire
field names, ISO-8601 timestamps, `${...}` string coercions, and absent
fields dropped by `dropUndefinedKeys` at both nesting levels. -/
def Session.toJSON (s : Session) : List (String × JVal) :=
  dropUndefinedKeys
    [ ("sid", some (JVal.str s.sid)),
      ("init", some (JVal.bool s.init)),
      ("started", some (JVal.str (toISOString s.started))),
      ("timestamp", some (JVal.str (toISOString s.timestamp))),
      ("status", some (JVal.str s.status.wire)),
      ("session_mode", some (JVal.str s.sessionMode.wire)),
      ("errors", some (JVal.num (s.errors : Int))),
      ("did", s.did.map JVal.str),
      ("duration", some (JVal.num s.duration)),
      ("attrs", some (JVal.obj (dropUndefinedKeys
        [ ("release", s.release.map JVal.str),
          ("environment", s.environment.map JVal.str),
          ("ip_address", s.ipAddress.map JVal.str),
          ("user_agent", s.userAgent.map JVal.str) ]))) ]

/-- Key lookup in a JSON object (first match). -/
def jlookup (l : List (String × JVal)) (k : String) : Option JVal :=
  match l with
  | [] => none
  | p :: rest => if p.1 = k then some p.2 else jlookup rest k

/-- Is this JSON value `null`? -/
def JVal.isNull : JVal → Bool
  | .null => true
  | _ => false

/-- No field of the object carries a JSON `null`. -/
def noNulls (l : List (String × JVal)) : Bool := l.all fun p => !(p.2.isNull)

/-- `AggregationCounts` from `packages/types/src/sessionflusher.ts`: one
aggregation bucket.  All fields start absent (`{}` in the source) and are
set lazily; the four counters are `Option` because the source distinguishes
`undefined` from a number (`c !== undefined ? c + 1 : 1`). -/
structure AggregationCounts where
  started : Option String := none
  errored : Option Nat := none
  exited : Option Nat := none
  crashed : Option Nat := none
  abnormal : Option Nat := none
deriving DecidableEq, Repr

/-- Counter read-out: an absent counter counts as zero. -/
def cnt (o : Option Nat) : Nat := o.getD 0

/-- The counter increment idiom of both flusher variants:
`c !== undefined ? c + 1 : 1`. -/
def jsInc (o : Option Nat) : Option Nat :=
  some (match o with | some n => n + 1 | none => 1)

/-- Total number of sessions recorded in one bucket. -/
def AggregationCounts.total (b : AggregationCounts) : Nat :=
  cnt b.crashed + cnt b.abnormal + cnt b.errored + cnt b.exited

/-- `AggregatedSessions` from `packages/types/src/sessionflusher.ts`: the
outbound payload of one flush. -/
structure AggregatedSessions where
  attrs : Option SessionAttributesContext := none
  aggregates : List AggregationCounts := []
deriving DecidableEq, Repr

/-- The Transport collaborator, reduced to what the flusher interrogates:
whether the optional `sendSessions` capability is implemented
(`!this._transport.sendSessions` is the duck-typed check). -/
structure Transport where
  sendSessions : Bool
deriving DecidableEq, Repr

/-- Observable effects of a flusher operation: payload handoffs to the
Transport collaborator, logger output, and timer cancellation. -/
inductive Effect where
  | sentSessions (p : AggregatedSessions)
  | warn (msg : String)
  | clearTimer
deriving DecidableEq, Repr

/-- Lookup in a numeric-keyed association list (a JavaScript object with
numeric keys). -/
def getKey (l : List (Nat × AggregationCounts)) (k : Nat) : Option AggregationCounts :=
  match l with
  | [] => none
  | p :: rest => if p.1 = k then some p.2 else getKey rest k

/-- Update/insert in a numeric-keyed association list, keeping keys in
ascending order: JavaScript objects enumerate integer-like keys in ascending
numeric order, which is the order `flush` reads them back in. -/
def setKey (l : List (Nat × AggregationCounts)) (k : Nat) (v : AggregationCounts) :
    List (Nat × AggregationCounts) :=
  match l with
  | [] => [(k, v)]
  | p :: rest =>
    if k < p.1 then (k, v) :: p :: rest
    else if k = p.1 then (k, v) :: rest
    else p :: setKey rest k v

/-- The `SessionFlusher` of `packages/hub/src/sessionflusher.ts`: a flat
time-keyed aggregate buffer plus one shared attribute record.  `timerActive`
models the `setInterval` handle (created at construction, cleared in
`close`). -/
structure SessionFlusher where
  pendingAggregates : List (Nat × AggregationCounts) := []
  sessionAttrs : Option SessionAttributesContext := none
  flushTimeout : Nat := 10
  timerActive : Bool := true
deriving DecidableEq, Repr

/-- The constructor: empty buffer, no attributes yet, interval timer started. -/
def SessionFlusher.construct (flushTimeout : Nat) : SessionFlusher :=
  { flushTimeout := flushTimeout }

/-- `SessionFlusher.sendSessions` (sessionflusher.ts lines 25-33): the
capability check on the Transport collaborator.  A missing capability is a
logged warning and a skipped call; otherwise the payload is handed off. -/
def SessionFlusher.sendSessions (t : Transport) (p : AggregatedSessions) : List Effect :=
  if t.sendSessions then [Effect.sentSessions p]
  else [Effect.warn ("Dropping session because custom transport doesn't implement sendSession")]

/-- `SessionFlusher.flush` (sessionflusher.ts lines 36-50): early return on an
empty buffer; otherwise read all buckets in key order, clear the buffer and
the shared attributes, and hand the payload to `sendSessions`. -/
def SessionFlusher.flush (t : Transport) (st : SessionFlusher) : SessionFlusher × List Effect :=
  if st.pendingAggregates.isEmpty then (st, [])
  else
    let aggregates := st.pendingAggregates.map (fun p => p.2)
    let payload : AggregatedSessions := { attrs := st.sessionAttrs, aggregates := aggregates }
    ({ st with pendingAggregates := [], sessionAttrs := none },
     SessionFlusher.sendSessions t payload)

/-- The lazy `started` stamp shared by both flusher variants:
`if (!counts.started) counts.started = new Date(k).toISOString()`. -/
def stampStarted (iso : String) (b : AggregationCounts) : AggregationCounts :=
  if jsTruthyOptStr b.started then b else { b with started := some iso }

/-- The classification chain shared verbatim by both flusher variants:
strict priority Crashed, then Abnormal, then errors > 0, then exited. -/
def classifyInc (s : Session) (b : AggregationCounts) : AggregationCounts :=
  if s.status = SessionStatus.Crashed then { b with crashed := jsInc b.crashed }
  else if s.status = SessionStatus.Abnormal then { b with abnormal := jsInc b.abnormal }
  else if 0 < s.errors then { b with errored := jsInc b.errored }
  else { b with exited := jsInc b.exited }

/-- `SessionFlusher.addSession` (sessionflusher.ts lines 59-86): record the
attributes on first use, truncate `started` to the hour window, lazily create
the bucket, stamp its `started` ISO string once, and increment exactly one
counter in priority order Crashed, Abnormal, errors > 0, exited. -/
def SessionFlusher.addSession (st : SessionFlusher) (s : Session) : SessionFlusher :=
  let attrs := match st.sessionAttrs with
               | none => some (s.getSessionAttributes false)
               | some a => some a
  let k := dateSetMinutes0 s.started
  let b := (getKey st.pendingAggregates k).getD {}
  let b := classifyInc s (stampStarted (toISOString k) b)
  { st with sessionAttrs := attrs, pendingAggregates := setKey st.pendingAggregates k b }

/-- `SessionFlusher.close` (sessionflusher.ts lines 53-56): clear the interval
timer, then flush synchronously. -/
def SessionFlusher.close (t : Transport) (st : SessionFlusher) : SessionFlusher × List Effect :=
  let st := { st with timerActive := false }
  let r := SessionFlusher.flush t st
  (r.1, Effect.clearTimer :: r.2)

/-- The bucket stored at a time key (the lazily created `{}` when absent). -/
def SessionFlusher.bucketAt (st : SessionFlusher) (k : Nat) : AggregationCounts :=
  (getKey st.pendingAggregates k).getD {}

/-- Sum of all counters currently buffered. -/
def SessionFlusher.bufferTotal (st : SessionFlusher) : Nat :=
  (st.pendingAggregates.map (fun p => p.2.total)).sum

/-- Total of the counters in one payload. -/
def AggregatedSessions.total (p : AggregatedSessions) : Nat :=
  (p.aggregates.map AggregationCounts.total).sum

/-- The payloads handed to the Transport collaborator among some effects. -/
def sentPayloads (effs : List Effect) : List AggregatedSessions :=
  effs.filterMap fun e => match e with | Effect.sentSessions p => some p | _ => none

/-- Summed counters over every payload dispatched by some effects. -/
def totalSent (effs : List Effect) : Nat :=
  ((sentPayloads effs).map AggregatedSessions.total).sum

/-- Hexadecimal digit character (lower case), as produced by JSON `\u00XX`
escapes. -/
def hexDigit : Nat → Char
  | 0 => '0' | 1 => '1' | 2 => '2' | 3 => '3' | 4 => '4'
  | 5 => '5' | 6 => '6' | 7 => '7' | 8 => '8' | 9 => '9'
  | 10 => 'a' | 11 => 'b' | 12 => 'c' | 13 => 'd' | 14 => 'e'
  | _ => 'f'

/-- `JSON.stringify` escaping of one string character (ECMA-262
QuoteJSONString): quote and backslash get a backslash escape, the named
control characters get their two-character escapes, other control characters
get `\u00XX`, everything else is emitted verbatim. -/
def escChar (c : Char) : List Char :=
  if c = '"' then ['\\', '"']
  else if c = '\\' then ['\\', '\\']
  else if c = '\x08' then ['\\', 'b']
  else if c = '\x09' then ['\\', 't']
  else if c = '\x0a' then ['\\', 'n']
  else if c = '\x0c' then ['\\', 'f']
  else if c = '\x0d' then ['\\', 'r']
  else if c.toNat < 32 then ['\\', 'u', '0', '0', hexDigit (c.toNat / 16), hexDigit (c.toNat % 16)]
  else [c]

/-- `JSON.stringify` escaping of a character sequence. -/
def escList : List Char → List Char
  | [] => []
  | c :: cs => escChar c ++ escList cs

/-- A JSON string literal: quote, escaped contents, quote. -/
def quoteJson (s : String) : String := "\"" ++ String.mk (escList s.data) ++ "\""

/-- One `"key":"value"` member of a stringified object. -/
def renderField (p : String × String) : String := quoteJson p.1 ++ ":" ++ quoteJson p.2

/-- Comma-joined members of a stringified object. -/
def renderFieldsJoin : List (String × String) → String
  | [] => ""
  | [p] => renderField p
  | p :: ps => renderField p ++ "," ++ renderFieldsJoin ps

/-- `JSON.stringify` of a flat string-valued object. -/
def renderStrObj (l : List (String × String)) : String :=
  "\x7b" ++ renderFieldsJoin l ++ "\x7d"

/-- Drop the absent fields of a flat object (what `JSON.stringify` does with
`undefined`-valued properties, and what `dropUndefinedKeys` does in
`SessionAttributes.toJSON`). -/
def dropAbsentStr (l : List (String × Option String)) : List (String × String) :=
  l.filterMap fun p => match p.2 with | some v => some (p.1, v) | none => none

/-- The `SessionAttributes` class of `packages/hub/src/session.ts`
(lines 164-206). -/
structure SessionAttributes where
  environment : Option String := none
  ipAddress : Option String := none
  release : Option String := none
  userAgent : Option String := none
deriving DecidableEq, Repr

/-- `SessionAttributes.update` (session.ts lines 177-190): presence-checked
(`!== undefined`) field merge, in source order. -/
def SessionAttributes.update (a : SessionAttributes) (ctx : SessionAttributesContext) :
    SessionAttributes :=
  let a := match ctx.environment with | some v => { a with environment := some v } | none => a
  let a := match ctx.ipAddress with | some v => { a with ipAddress := some v } | none => a
  let a := match ctx.release with | some v => { a with release := some v } | none => a
  let a := match ctx.userAgent with | some v => { a with userAgent := some v } | none => a
  a

/-- The `SessionAttributes` constructor: apply the context to the defaults. -/
def SessionAttributes.construct (ctx : SessionAttributesContext) : SessionAttributes :=
  SessionAttributes.update {} ctx

/-- `JSON.stringify(sessionAttrs)`: `JSON.stringify` consults the `toJSON`
method (session.ts lines 193-206), which lists `environment`, `ip_address`,
`release`, `user_agent` in that order with absent fields dropped. -/
def SessionAttributes.stringify (a : SessionAttributes) : String :=
  renderStrObj (dropAbsentStr
    [("environment", a.environment), ("ip_address", a.ipAddress),
     ("release", a.release), ("user_agent", a.userAgent)])

/-- Lookup in a string-keyed association list (a JavaScript object with
string keys, insertion-ordered). -/
def getStrKey {α : Type} (l : List (String × α)) (k : String) : Option α :=
  match l with
  | [] => none
  | p :: rest => if p.1 = k then some p.2 else getStrKey rest k

/-- Update/insert in a string-keyed association list: JavaScript objects
enumerate string keys in insertion order, so a new key is appended. -/
def setStrKey {α : Type} (l : List (String × α)) (k : String) (v : α) : List (String × α) :=
  match l with
  | [] => [(k, v)]
  | p :: rest => if p.1 = k then (k, v) :: rest else p :: setStrKey rest k v

/-- The two-level `SessionFlusher` of `packages/hub/src/session.ts`
(lines 211-287): an attrs-keyed map of time-keyed bucket maps, plus the
documented `maxItemsInEnvelope` constant (declared `= 100` on line 212). -/
structure AggSessionFlusher where
  maxItemsInEnvelope : Nat := 100
  pendingAggregates : List (String × List (Nat × AggregationCounts)) := []
deriving DecidableEq, Repr

/-- The two-level flusher's constructor: empty buffer. -/
def AggSessionFlusher.construct : AggSessionFlusher := {}

/-- The first-level map key of `_addAggregateSession` (session.ts line
253-254): the session's grouping attributes, user info excluded,
deterministically stringified. -/
def AggSessionFlusher.attrsKey (s : Session) : String :=
  SessionAttributes.stringify (SessionAttributes.construct (s.getSessionAttributes false))

/-- The second-level map key of `_addAggregateSession` (session.ts line 257):
the `started` timestamp truncated to its hour window. -/
def AggSessionFlusher.bucketKey (s : Session) : Nat := dateSetMinutes0 s.started

/-- `SessionFlusher._addAggregateSession` (session.ts lines 251-286): look up
or lazily create the bucket at `[attrsKey][bucketKey]`, stamp its `started`
ISO string on first creation, and increment exactly one counter in priority
order Crashed, Abnormal, errors > 0, exited. -/
def AggSessionFlusher.addAggregateSession (st : AggSessionFlusher) (s : Session) :
    AggSessionFlusher :=
  let k1 := AggSessionFlusher.attrsKey s
  let k2 := AggSessionFlusher.bucketKey s
  let inner := (getStrKey st.pendingAggregates k1).getD []
  let b := (getKey inner k2).getD {}
  let b := classifyInc s (stampStarted (toISOString k2) b)
  { st with pendingAggregates := setStrKey st.pendingAggregates k1 (setKey inner k2 b) }

/-- `SessionFlusher.addSession` (session.ts lines 240-242): delegates to
`_addAggregateSession`. -/
def AggSessionFlusher.addSession (st : AggSessionFlusher) (s : Session) : AggSessionFlusher :=
  AggSessionFlusher.addAggregateSession st s

/-- The counter total stored at a two-level address. -/
def AggSessionFlusher.totalAt (st : AggSessionFlusher) (k1 : String) (k2 : Nat) : Nat :=
  AggregationCounts.total ((getKey ((getStrKey st.pendingAggregates k1).getD []) k2).getD {})

/-- Greedy splitter of one leading `JSON.stringify` escape sequence: the
left inverse used to show that escaping is injective. -/
def splitEsc : List Char → Option (List Char × List Char)
  | [] => none
  | c :: rest =>
    if c = '\\' then
      match rest with
      | [] => none
      | e :: rest2 =>
        if e = 'u' then
          match rest2 with
          | d1 :: d2 :: d3 :: d4 :: rest3 => some (['\\', 'u', d1, d2, d3, d4], rest3)
          | _ => none
        else some (['\\', e], rest2)
    else some ([c], rest)

/-- Value of a lower-case hexadecimal digit character. -/
def hexVal : Char → Nat
  | '0' => 0 | '1' => 1 | '2' => 2 | '3' => 3 | '4' => 4
  | '5' => 5 | '6' => 6 | '7' => 7 | '8' => 8 | '9' => 9
  | 'a' => 10 | 'b' => 11 | 'c' => 12 | 'd' => 13 | 'e' => 14
  | 'f' => 15
  | _ => 0

/-- Decoder of one full `JSON.stringify` escape chunk: the left inverse of
`escChar`, used to show the escaping is injective. -/
def decodeEsc : List Char → Option Char
  | [] => none
  | c :: rest =>
    if c = '\\' then
      match rest with
      | [e] =>
        if e = '"' then some '"'
        else if e = '\\' then some '\\'
        else if e = 'n' then some '\x0a'
        else if e = 'r' then some '\x0d'
        else if e = 't' then some '\x09'
        else if e = 'b' then some '\x08'
        else if e = 'f' then some '\x0c'
        else none
      | ['u', _, _, d3, d4] => some (Char.ofNat (16 * hexVal d3 + hexVal d4))
      | _ => none
    else
      match rest with
      | [] => some c
      | _ => none

/-- Ascending key order of the numeric-keyed buffer (the invariant `setKey`
maintains, matching JavaScript's integer-key enumeration order). -/
def keysSorted (l : List (Nat × AggregationCounts)) : Prop :=
  List.Pairwise (fun a b => a.1 < b.1) l

/-! ### Helper lemmas -/

theorem jsInc_cnt (o : Option Nat) : cnt (jsInc o) = cnt o + 1 := by
  cases o <;> rfl

theorem getKey_setKey_self (l : List (Nat × AggregationCounts)) (k : Nat)
    (v : AggregationCounts) : getKey (setKey l k v) k = some v := by
  induction l with
  | nil => simp [setKey, getKey]
  | cons p rest ih =>
    by_cases h1 : k < p.1
    · simp [setKey, getKey, h1]
    · by_cases h2 : k = p.1
      · simp [setKey, getKey, h1, h2]
      · have h2' : ¬ p.1 = k := fun hh => h2 hh.symm
        simp [setKey, getKey, h1, h2, h2', ih]

theorem getStrKey_setStrKey_self {α : Type} (l : List (String × α)) (k : String) (v : α) :
    getStrKey (setStrKey l k v) k = some v := by
  induction l with
  | nil => simp [setStrKey, getStrKey]
  | cons p rest ih =>
    by_cases h : p.1 = k
    · simp [setStrKey, getStrKey, h]
    · simp [setStrKey, getStrKey, h, ih]

theorem updUser_status (ctx : SessionContext) (s : Session) : (updUser ctx s).status = s.status := by
  unfold updUser
  cases ctx.user with
  | none => rfl
  | some u =>
    cases hip : u.ip_address with
    | none => simp only [hip]; split <;> rfl
    | some ip =>
      simp only [hip]
      split
      · split <;> rfl
      · dsimp only; split <;> rfl

theorem updTimestamp_status (now : Nat) (ctx : SessionContext) (s : Session) :
    (updTimestamp now ctx s).status = s.status := rfl

theorem updSid_status (fresh : String) (ctx : SessionContext) (s : Session) :
    (updSid fresh ctx s).status = s.status := by
  unfold updSid; cases ctx.sid with
  | none => rfl
  | some v => dsimp only; split <;> rfl

theorem updInit_status (ctx : SessionContext) (s : Session) : (updInit ctx s).status = s.status := by
  unfold updInit; cases ctx.init <;> rfl

theorem updDid_status (ctx : SessionContext) (s : Session) : (updDid ctx s).status = s.status := by
  unfold updDid; cases ctx.did with
  | none => rfl
  | some d => dsimp only; split <;> rfl

theorem updStarted_status (ctx : SessionContext) (s : Session) :
    (updStarted ctx s).status = s.status := by
  unfold updStarted; cases ctx.started <;> rfl

theorem updDuration_status (ctx : SessionContext) (s : Session) :
    (updDuration ctx s).status = s.status := by
  unfold updDuration; cases ctx.duration <;> rfl

theorem updRelease_status (ctx : SessionContext) (s : Session) :
    (updRelease ctx s).status = s.status := by
  unfold updRelease; cases ctx.release with
  | none => rfl
  | some v => dsimp only; split <;> rfl

theorem updEnvironment_status (ctx : SessionContext) (s : Session) :
    (updEnvironment ctx s).status = s.status := by
  unfold updEnvironment; cases ctx.environment with
  | none => rfl
  | some v => dsimp only; split <;> rfl

theorem updIpAddress_status (ctx : SessionContext) (s : Session) :
    (updIpAddress ctx s).status = s.status := by
  unfold updIpAddress; cases ctx.ipAddress with
  | none => rfl
  | some v => dsimp only; split <;> rfl

theorem updUserAgent_status (ctx : SessionContext) (s : Session) :
    (updUserAgent ctx s).status = s.status := by
  unfold updUserAgent; cases ctx.userAgent with
  | none => rfl
  | some v => dsimp only; split <;> rfl

theorem updErrors_status (ctx : SessionContext) (s : Session) :
    (updErrors ctx s).status = s.status := by
  unfold updErrors; cases ctx.errors <;> rfl

theorem updSessionMode_status (ctx : SessionContext) (s : Session) :
    (updSessionMode ctx s).status = s.status := by
  unfold updSessionMode; cases ctx.sessionMode <;> rfl

theorem updStatus_char (ctx : SessionContext) (s : Session) :
    (updStatus ctx s).status = match ctx.status with | some st => st | none => s.status := by
  unfold updStatus; cases ctx.status <;> rfl

theorem updUser_sid (ctx : SessionContext) (s : Session) : (updUser ctx s).sid = s.sid := by
  unfold updUser
  cases ctx.user with
  | none => rfl
  | some u =>
    cases hip : u.ip_address with
    | none => simp only [hip]; split <;> rfl
    | some ip =>
      simp only [hip]
      split
      · split <;> rfl
      · dsimp only; split <;> rfl

theorem updTimestamp_sid (now : Nat) (ctx : SessionContext) (s : Session) :
    (updTimestamp now ctx s).sid = s.sid := rfl

theorem updInit_sid (ctx : SessionContext) (s : Session) : (updInit ctx s).sid = s.sid := by
  unfold updInit; cases ctx.init <;> rfl

theorem updDid_sid (ctx : SessionContext) (s : Session) : (updDid ctx s).sid = s.sid := by
  unfold updDid; cases ctx.did with
  | none => rfl
  | some d => dsimp only; split <;> rfl

theorem updStarted_sid (ctx : SessionContext) (s : Session) : (updStarted ctx s).sid = s.sid := by
  unfold updStarted; cases ctx.started <;> rfl

theorem updDuration_sid (ctx : SessionContext) (s : Session) : (updDuration ctx s).sid = s.sid := by
  unfold updDuration; cases ctx.duration <;> rfl

theorem updRelease_sid (ctx : SessionContext) (s : Session) : (updRelease ctx s).sid = s.sid := by
  unfold updRelease; cases ctx.release with
  | none => rfl
  | some v => dsimp only; split <;> rfl

theorem updEnvironment_sid (ctx : SessionContext) (s : Session) :
    (updEnvironment ctx s).sid = s.sid := by
  unfold updEnvironment; cases ctx.environment with
  | none => rfl
  | some v => dsimp only; split <;> rfl

theorem updIpAddress_sid (ctx : SessionContext) (s : Session) :
    (updIpAddress ctx s).sid = s.sid := by
  unfold updIpAddress; cases ctx.ipAddress with
  | none => rfl
  | some v => dsimp only; split <;> rfl

theorem updUserAgent_sid (ctx : SessionContext) (s : Session) :
    (updUserAgent ctx s).sid = s.sid := by
  unfold updUserAgent; cases ctx.userAgent with
  | none => rfl
  | some v => dsimp only; split <;> rfl

theorem updErrors_sid (ctx : SessionContext) (s : Session) : (updErrors ctx s).sid = s.sid := by
  unfold updErrors; cases ctx.errors <;> rfl

theorem updStatus_sid (ctx : SessionContext) (s : Session) : (updStatus ctx s).sid = s.sid := by
  unfold updStatus; cases ctx.status <;> rfl

theorem updSessionMode_sid (ctx : SessionContext) (s : Session) :
    (updSessionMode ctx s).sid = s.sid := by
  unfold updSessionMode; cases ctx.sessionMode <;> rfl

/-- The sid-validation statement, on a truthy supplied sid. -/
theorem updSid_char (fresh : String) (ctx : SessionContext) (s : Session) (v : String)
    (hsid : ctx.sid = some v) (hv : v ≠ "") :
    (updSid fresh ctx s).sid = if v.length = 32 then v else fresh := by
  unfold updSid
  rw [hsid]
  have ht : jsTruthyStr v = true := by simp [jsTruthyStr]; exact hv
  simp [ht]

/-- The sid-validation statement skips an empty-string sid entirely. -/
theorem updSid_empty (fresh : String) (ctx : SessionContext) (s : Session)
    (hsid : ctx.sid = some "") : (updSid fresh ctx s).sid = s.sid := by
  unfold updSid
  rw [hsid]
  simp [jsTruthyStr]

/-- The sid of an updated session, for a truthy supplied sid: kept when it
has exactly 32 characters, else replaced by the freshly generated id. -/
theorem update_sid (fresh : String) (now : Nat) (s : Session) (ctx : SessionContext) (v : String)
    (hsid : ctx.sid = some v) (hv : v ≠ "") :
    (Session.update fresh now s ctx).sid = if v.length = 32 then v else fresh := by
  unfold Session.update
  rw [updSessionMode_sid, updStatus_sid, updErrors_sid, updUserAgent_sid, updIpAddress_sid,
    updEnvironment_sid, updRelease_sid, updDuration_sid, updStarted_sid, updDid_sid, updInit_sid]
  exact updSid_char fresh ctx _ v hsid hv

/-- The sid of an updated session, for an empty-string supplied sid: left
unchanged (the `if (context.sid)` guard treats it as absent). -/
theorem update_sid_empty (fresh : String) (now : Nat) (s : Session) (ctx : SessionContext)
    (hsid : ctx.sid = some "") : (Session.update fresh now s ctx).sid = s.sid := by
  unfold Session.update
  rw [updSessionMode_sid, updStatus_sid, updErrors_sid, updUserAgent_sid, updIpAddress_sid,
    updEnvironment_sid, updRelease_sid, updDuration_sid, updStarted_sid, updDid_sid, updInit_sid,
    updSid_empty fresh ctx _ hsid, updTimestamp_sid, updUser_sid]

theorem updTimestamp_did (now : Nat) (ctx : SessionContext) (s : Session) :
    (updTimestamp now ctx s).did = s.did := rfl

theorem updSid_did (fresh : String) (ctx : SessionContext) (s : Session) :
    (updSid fresh ctx s).did = s.did := by
  unfold updSid; cases ctx.sid with
  | none => rfl
  | some v => dsimp only; split <;> rfl

theorem updInit_did (ctx : SessionContext) (s : Session) : (updInit ctx s).did = s.did := by
  unfold updInit; cases ctx.init <;> rfl

theorem updStarted_did (ctx : SessionContext) (s : Session) : (updStarted ctx s).did = s.did := by
  unfold updStarted; cases ctx.started <;> rfl

theorem updDuration_did (ctx : SessionContext) (s : Session) : (updDuration ctx s).did = s.did := by
  unfold updDuration; cases ctx.duration <;> rfl

theorem updRelease_did (ctx : SessionContext) (s : Session) : (updRelease ctx s).did = s.did := by
  unfold updRelease; cases ctx.release with
  | none => rfl
  | some v => dsimp only; split <;> rfl

theorem updEnvironment_did (ctx : SessionContext) (s : Session) :
    (updEnvironment ctx s).did = s.did := by
  unfold updEnvironment; cases ctx.environment with
  | none => rfl
  | some v => dsimp only; split <;> rfl

theorem updIpAddress_did (ctx : SessionContext) (s : Session) :
    (updIpAddress ctx s).did = s.did := by
  unfold updIpAddress; cases ctx.ipAddress with
  | none => rfl
  | some v => dsimp only; split <;> rfl

theorem updUserAgent_did (ctx : SessionContext) (s : Session) :
    (updUserAgent ctx s).did = s.did := by
  unfold updUserAgent; cases ctx.userAgent with
  | none => rfl
  | some v => dsimp only; split <;> rfl

theorem updErrors_did (ctx : SessionContext) (s : Session) : (updErrors ctx s).did = s.did := by
  unfold updErrors; cases ctx.errors <;> rfl

theorem updStatus_did (ctx : SessionContext) (s : Session) : (updStatus ctx s).did = s.did := by
  unfold updStatus; cases ctx.status <;> rfl

theorem updSessionMode_did (ctx : SessionContext) (s : Session) :
    (updSessionMode ctx s).did = s.did := by
  unfold updSessionMode; cases ctx.sessionMode <;> rfl

theorem updDid_did_none (ctx : SessionContext) (s : Session) (hd : ctx.did = none) :
    (updDid ctx s).did = s.did := by
  unfold updDid; rw [hd]

/-- With a user in the context and no (truthy) did, the did is recomputed by
the JavaScript or-chain `user.id || user.email || user.username`. -/
theorem updUser_did_none (ctx : SessionContext) (s : Session) (u : User)
    (hu : ctx.user = some u) (hd : ctx.did = none) :
    (updUser ctx s).did = jsOrStr u.id (jsOrStr u.email u.username) := by
  unfold updUser
  rw [hu]
  have hfalse : jsTruthyOptStr ctx.did = false := by rw [hd]; rfl
  simp [hfalse]

/-- The did of an updated session whose context has a user but no did field. -/
theorem update_did_fromUser (fresh : String) (now : Nat) (s : Session) (ctx : SessionContext)
    (u : User) (hu : ctx.user = some u) (hd : ctx.did = none) :
    (Session.update fresh now s ctx).did = jsOrStr u.id (jsOrStr u.email u.username) := by
  unfold Session.update
  rw [updSessionMode_did, updStatus_did, updErrors_did, updUserAgent_did, updIpAddress_did,
    updEnvironment_did, updRelease_did, updDuration_did, updStarted_did,
    updDid_did_none _ _ hd, updInit_did, updSid_did, updTimestamp_did,
    updUser_did_none ctx _ u hu hd]

/-- The status of an updated session: whatever the context says, else the
old status. -/
theorem update_status (fresh : String) (now : Nat) (s : Session) (ctx : SessionContext) :
    (Session.update fresh now s ctx).status =
      match ctx.status with | some st => st | none => s.status := by
  simp only [Session.update, updSessionMode_status, updStatus_char, updErrors_status,
    updUserAgent_status, updIpAddress_status, updEnvironment_status, updRelease_status,
    updDuration_status, updStarted_status, updDid_status, updInit_status, updSid_status,
    updTimestamp_status, updUser_status]

theorem mem_setKey (l : List (Nat × AggregationCounts)) (k : Nat) (v : AggregationCounts)
    (x : Nat × AggregationCounts) (hx : x ∈ setKey l k v) : x = (k, v) ∨ x ∈ l := by
  induction l with
  | nil => simp [setKey] at hx; simp [hx]
  | cons p rest ih =>
    by_cases h1 : k < p.1
    · simp only [setKey, if_pos h1] at hx
      rcases List.mem_cons.mp hx with h | h
      · left; exact h
      · right; exact h
    · by_cases h2 : k = p.1
      · simp only [setKey, if_neg h1, if_pos h2] at hx
        rcases List.mem_cons.mp hx with h | h
        · left; exact h
        · right; exact List.mem_cons_of_mem _ h
      · simp only [setKey, if_neg h1, if_neg h2] at hx
        rcases List.mem_cons.mp hx with h | h
        · right; rw [h]; exact List.mem_cons_self _ _
        · rcases ih h with h' | h'
          · left; exact h'
          · right; exact List.mem_cons_of_mem _ h'

theorem getKey_none_of_lt (l : List (Nat × AggregationCounts)) (k : Nat)
    (h : ∀ p ∈ l, k < p.1) : getKey l k = none := by
  induction l with
  | nil => rfl
  | cons p rest ih =>
    have hp := h p (List.mem_cons_self _ _)
    have hne : ¬ p.1 = k := by omega
    simp only [getKey, if_neg hne]
    exact ih fun q hq => h q (List.mem_cons_of_mem _ hq)

theorem setKey_sorted (l : List (Nat × AggregationCounts)) (k : Nat) (v : AggregationCounts)
    (h : keysSorted l) : keysSorted (setKey l k v) := by
  induction l with
  | nil => simp [setKey, keysSorted]
  | cons p rest ih =>
    unfold keysSorted at h ⊢
    rw [List.pairwise_cons] at h
    obtain ⟨hp, hrest⟩ := h
    by_cases h1 : k < p.1
    · simp only [setKey, if_pos h1]
      rw [List.pairwise_cons]
      refine ⟨fun q hq => ?_, ?_⟩
      · rcases List.mem_cons.mp hq with h' | h'
        · rw [h']; exact h1
        · exact lt_trans h1 (hp q h')
      · rw [List.pairwise_cons]; exact ⟨hp, hrest⟩
    · by_cases h2 : k = p.1
      · simp only [setKey, if_neg h1, if_pos h2]
        rw [List.pairwise_cons]
        exact ⟨fun q hq => h2 ▸ hp q hq, hrest⟩
      · simp only [setKey, if_neg h1, if_neg h2]
        rw [List.pairwise_cons]
        refine ⟨fun q hq => ?_, ih hrest⟩
        rcases mem_setKey rest k v q hq with h' | h'
        · rw [h']; omega
        · exact hp q h'

theorem sum_setKey (l : List (Nat × AggregationCounts)) (k : Nat) (v : AggregationCounts)
    (h : keysSorted l) :
    ((setKey l k v).map (fun p => p.2.total)).sum + ((getKey l k).getD {}).total
      = (l.map (fun p => p.2.total)).sum + v.total := by
  induction l with
  | nil => simp [setKey, getKey, AggregationCounts.total, cnt]
  | cons p rest ih =>
    unfold keysSorted at h
    rw [List.pairwise_cons] at h
    obtain ⟨hp, hrest⟩ := h
    by_cases h1 : k < p.1
    · have hnone : getKey (p :: rest) k = none := by
        apply getKey_none_of_lt
        intro q hq
        rcases List.mem_cons.mp hq with h' | h'
        · rw [h']; exact h1
        · exact lt_trans h1 (hp q h')
      simp only [setKey, if_pos h1, hnone, List.map_cons, List.sum_cons, Option.getD_none]
      have : ({} : AggregationCounts).total = 0 := rfl
      omega
    · by_cases h2 : k = p.1
      · have hfind : getKey (p :: rest) k = some p.2 := by
          simp only [getKey, if_pos h2.symm]
        simp only [setKey, if_neg h1, if_pos h2, hfind, List.map_cons, List.sum_cons,
          Option.getD_some]
        omega
      · have h2' : ¬ p.1 = k := fun hh => h2 hh.symm
        simp only [setKey, if_neg h1, if_neg h2, List.map_cons, List.sum_cons, getKey,
          if_neg h2']
        have := ih hrest
        omega

theorem stampStarted_total (iso : String) (b : AggregationCounts) :
    (stampStarted iso b).total = b.total := by
  unfold stampStarted
  split <;> rfl

theorem classifyInc_total (s : Session) (b : AggregationCounts) :
    (classifyInc s b).total = b.total + 1 := by
  unfold classifyInc
  by_cases h1 : s.status = SessionStatus.Crashed <;>
    by_cases h2 : s.status = SessionStatus.Abnormal <;>
      by_cases h3 : 0 < s.errors <;>
        simp [h1, h2, h3, AggregationCounts.total, jsInc_cnt] <;> omega

theorem addSession_sorted (st : SessionFlusher) (s : Session)
    (h : keysSorted st.pendingAggregates) :
    keysSorted (SessionFlusher.addSession st s).pendingAggregates := by
  unfold SessionFlusher.addSession
  dsimp only
  exact setKey_sorted _ _ _ h

theorem addSession_bufferTotal (st : SessionFlusher) (s : Session)
    (h : keysSorted st.pendingAggregates) :
    (SessionFlusher.addSession st s).bufferTotal = st.bufferTotal + 1 := by
  unfold SessionFlusher.addSession SessionFlusher.bufferTotal
  dsimp only
  have hsum := sum_setKey st.pendingAggregates (dateSetMinutes0 s.started)
    (classifyInc s (stampStarted (toISOString (dateSetMinutes0 s.started))
      ((getKey st.pendingAggregates (dateSetMinutes0 s.started)).getD {}))) h
  have hts : (classifyInc s (stampStarted (toISOString (dateSetMinutes0 s.started))
      ((getKey st.pendingAggregates (dateSetMinutes0 s.started)).getD {}))).total
      = ((getKey st.pendingAggregates (dateSetMinutes0 s.started)).getD {}).total + 1 := by
    rw [classifyInc_total, stampStarted_total]
  omega

theorem foldl_addSession_inv (sessions : List Session) :
    ∀ st : SessionFlusher, keysSorted st.pendingAggregates →
      keysSorted (List.foldl SessionFlusher.addSession st sessions).pendingAggregates ∧
      (List.foldl SessionFlusher.addSession st sessions).bufferTotal
        = st.bufferTotal + sessions.length := by
  induction sessions with
  | nil => intro st h; exact ⟨h, rfl⟩
  | cons s ss ih =>
    intro st h
    have h1 := addSession_sorted st s h
    obtain ⟨hs, ht⟩ := ih (SessionFlusher.addSession st s) h1
    refine ⟨hs, ?_⟩
    simp only [List.foldl_cons, List.length_cons]
    rw [ht, addSession_bufferTotal st s h]
    omega

theorem flush_of_empty (t : Transport) (st : SessionFlusher)
    (h : st.pendingAggregates = []) : SessionFlusher.flush t st = (st, []) := by
  unfold SessionFlusher.flush
  rw [h]
  rfl

theorem flush_fst_pending (t : Transport) (st : SessionFlusher) :
    (SessionFlusher.flush t st).1.pendingAggregates = [] := by
  cases hl : st.pendingAggregates with
  | nil => rw [flush_of_empty t st hl]; exact hl
  | cons a as =>
    unfold SessionFlusher.flush
    rw [hl]
    rfl

theorem flush_totalSent (t : Transport) (st : SessionFlusher) (ht : t.sendSessions = true) :
    totalSent (SessionFlusher.flush t st).2 = st.bufferTotal := by
  cases hl : st.pendingAggregates with
  | nil =>
    rw [flush_of_empty t st hl]
    simp [totalSent, sentPayloads, SessionFlusher.bufferTotal, hl]
  | cons a as =>
    unfold SessionFlusher.flush
    rw [hl]
    dsimp only
    unfold SessionFlusher.sendSessions
    rw [if_pos ht]
    simp [totalSent, sentPayloads, AggregatedSessions.total, SessionFlusher.bufferTotal, hl,
      List.map_map, Function.comp]
    rfl

theorem escChar_head (c : Char) : ∃ h tl, escChar c = h :: tl ∧ h ≠ '"' := by
  unfold escChar
  split_ifs with h1 h2 h3 h4 h5 h6 h7 h8
  · exact ⟨'\\', _, rfl, by decide⟩
  · exact ⟨'\\', _, rfl, by decide⟩
  · exact ⟨'\\', _, rfl, by decide⟩
  · exact ⟨'\\', _, rfl, by decide⟩
  · exact ⟨'\\', _, rfl, by decide⟩
  · exact ⟨'\\', _, rfl, by decide⟩
  · exact ⟨'\\', _, rfl, by decide⟩
  · exact ⟨'\\', _, rfl, by decide⟩
  · exact ⟨c, [], rfl, h1⟩

theorem hexVal_hexDigit : ∀ m : Fin 16, hexVal (hexDigit m.val) = m.val := by decide

theorem decodeEsc_escChar (c : Char) : decodeEsc (escChar c) = some c := by
  unfold escChar
  split_ifs with h1 h2 h3 h4 h5 h6 h7 h8
  · rw [h1]; rfl
  · rw [h2]; rfl
  · rw [h3]; rfl
  · rw [h4]; rfl
  · rw [h5]; rfl
  · rw [h6]; rfl
  · rw [h7]; rfl
  · have hdiv : c.toNat / 16 < 16 := by omega
    have hmod : c.toNat % 16 < 16 := Nat.mod_lt _ (by decide)
    have e3 : hexVal (hexDigit (c.toNat / 16)) = c.toNat / 16 := hexVal_hexDigit ⟨_, hdiv⟩
    have e4 : hexVal (hexDigit (c.toNat % 16)) = c.toNat % 16 := hexVal_hexDigit ⟨_, hmod⟩
    show some (Char.ofNat (16 * hexVal (hexDigit (c.toNat / 16))
      + hexVal (hexDigit (c.toNat % 16)))) = some c
    rw [e3, e4, Nat.div_add_mod c.toNat 16, Char.ofNat_toNat]
  · simp [decodeEsc, h2]

theorem escChar_inj (c1 c2 : Char) (h : escChar c1 = escChar c2) : c1 = c2 := by
  have hdec := congrArg decodeEsc h
  rw [decodeEsc_escChar, decodeEsc_escChar] at hdec
  exact Option.some.inj hdec

theorem splitEsc_escChar (c : Char) (l : List Char) :
    splitEsc (escChar c ++ l) = some (escChar c, l) := by
  unfold escChar
  split_ifs with h1 h2 h3 h4 h5 h6 h7 h8
  · rfl
  · rfl
  · rfl
  · rfl
  · rfl
  · rfl
  · rfl
  · rfl
  · simp [splitEsc, h2]

theorem escList_append_quote_inj (a : List Char) :
    ∀ (b x y : List Char),
      escList a ++ '"' :: x = escList b ++ '"' :: y → a = b ∧ x = y := by
  induction a with
  | nil =>
    intro b x y h
    cases b with
    | nil =>
      refine ⟨rfl, ?_⟩
      simpa [escList] using h
    | cons c cs =>
      exfalso
      obtain ⟨hh, tl, hesc, hne⟩ := escChar_head c
      rw [show escList (c :: cs) = escChar c ++ escList cs from rfl, hesc] at h
      simp only [escList, List.nil_append, List.cons_append] at h
      exact hne (List.head_eq_of_cons_eq h).symm
  | cons c cs ih =>
    intro b x y h
    cases b with
    | nil =>
      exfalso
      obtain ⟨hh, tl, hesc, hne⟩ := escChar_head c
      rw [show escList (c :: cs) = escChar c ++ escList cs from rfl, hesc] at h
      simp only [escList, List.nil_append, List.cons_append] at h
      exact hne (List.head_eq_of_cons_eq h)
    | cons c' cs' =>
      rw [show escList (c :: cs) = escChar c ++ escList cs from rfl,
        show escList (c' :: cs') = escChar c' ++ escList cs' from rfl,
        List.append_assoc, List.append_assoc] at h
      have hs := congrArg splitEsc h
      rw [splitEsc_escChar, splitEsc_escChar] at hs
      have hp := Option.some.inj hs
      have h1 := congrArg Prod.fst hp
      have h2 := congrArg Prod.snd hp
      dsimp only at h1 h2
      have hc := escChar_inj c c' h1
      obtain ⟨hcs, hxy⟩ := ih cs' x y h2
      exact ⟨by rw [hc, hcs], hxy⟩

theorem data_mk (l : List Char) : (String.mk l).data = l := rfl

theorem construct_pair (e r : Option String) :
    SessionAttributes.construct
      { environment := e, ipAddress := none, release := r, userAgent := none }
      = { environment := e, ipAddress := none, release := r, userAgent := none } := by
  cases e <;> cases r <;> rfl

/-- The grouping key of a session is the stringification of just its
release/environment pair. -/
theorem attrsKey_eq (s : Session) :
    AggSessionFlusher.attrsKey s =
      SessionAttributes.stringify
        { environment := s.environment, ipAddress := none,
          release := s.release, userAgent := none } := by
  unfold AggSessionFlusher.attrsKey
  rw [show s.getSessionAttributes false =
      { environment := s.environment, ipAddress := none,
        release := s.release, userAgent := none } from rfl,
    construct_pair]

/-- Stringified attribute records with present environments agree only if the
environments agree, whatever the releases are. -/
theorem stringify_env_inj (e1 e2 : String) (r1 r2 : Option String)
    (h : SessionAttributes.stringify
        { environment := some e1, ipAddress := none, release := r1, userAgent := none }
      = SessionAttributes.stringify
        { environment := some e2, ipAddress := none, release := r2, userAgent := none }) :
    e1 = e2 := by
  have hd := congrArg String.data h
  cases r1 <;> cases r2 <;>
    (simp only [SessionAttributes.stringify, dropAbsentStr, renderStrObj, renderFieldsJoin,
       renderField, quoteJson, List.filterMap, String.data_append, data_mk,
       List.append_assoc, List.cons_append, List.nil_append, List.cons.injEq,
       eq_self_iff_true, true_and] at hd
     have hd2 := List.append_cancel_left hd
     simp only [List.cons.injEq, eq_self_iff_true, true_and] at hd2
     obtain ⟨he, _⟩ := escList_append_quote_inj e1.data e2.data _ _ hd2
     cases e1
     cases e2
     exact congrArg String.mk he)

/-- A stringified attribute record with a present environment never equals
one with an absent environment. -/
theorem stringify_env_presence (e : String) (r1 r2 : Option String) :
    SessionAttributes.stringify
      { environment := some e, ipAddress := none, release := r1, userAgent := none }
      ≠ SessionAttributes.stringify
        { environment := none, ipAddress := none, release := r2, userAgent := none } := by
  intro h
  have hd := congrArg String.data h
  cases r2 with
  | none =>
    cases r1 <;>
      (simp only [SessionAttributes.stringify, dropAbsentStr, renderStrObj, renderFieldsJoin,
         renderField, quoteJson, List.filterMap, String.data_append, data_mk,
         List.append_assoc, List.cons_append, List.nil_append] at hd
       injection hd with h1 hd2
       injection hd2 with h2 hd3
       exact absurd h2 (by decide))
  | some r =>
    cases r1 <;>
      (simp only [SessionAttributes.stringify, dropAbsentStr, renderStrObj, renderFieldsJoin,
         renderField, quoteJson, List.filterMap, String.data_append, data_mk,
         List.append_assoc, List.cons_append, List.nil_append] at hd
       injection hd with h1 hd2
       injection hd2 with h2 hd3
       rw [show escList ['e', 'n', 'v', 'i', 'r', 'o', 'n', 'm', 'e', 'n', 't']
             = ['e', 'n', 'v', 'i', 'r', 'o', 'n', 'm', 'e', 'n', 't'] from by decide,
         show escList ['r', 'e', 'l', 'e', 'a', 's', 'e']
             = ['r', 'e', 'l', 'e', 'a', 's', 'e'] from by decide] at hd3
       simp only [List.cons_append] at hd3
       injection hd3 with h3 hd4
       exact absurd h3 (by decide))

/-- `_addAggregateSession` increments the bucket at the session's own
two-level address by exactly one. -/
theorem addAgg_totalAt_self (st : AggSessionFlusher) (s : Session) :
    (AggSessionFlusher.addAggregateSession st s).totalAt
        (AggSessionFlusher.attrsKey s) (AggSessionFlusher.bucketKey s)
      = st.totalAt (AggSessionFlusher.attrsKey s) (AggSessionFlusher.bucketKey s) + 1 := by
  unfold AggSessionFlusher.addAggregateSession AggSessionFlusher.totalAt
  dsimp only
  rw [getStrKey_setStrKey_self]
  simp only [Option.getD_some]
  rw [getKey_setKey_self]
  simp only [Option.getD_some]
  rw [classifyInc_total, stampStarted_total]

/-! ### Claims -/

/-- C6: A Session's status starts at Ok; `close(status)` sets the given
status when one is supplied, sets Exited when none is supplied and the
current status is Ok, and otherwise performs a no-field update refreshing
only `timestamp` and `duration`; and any `update` whose context carries no
status field leaves the status unchanged — a closed (non-Ok) session never
silently reverts to Ok. -/
theorem claim_c6_status_lifecycle (fresh sid0 : String) (now now0 : Nat) (s : Session)
    (st : SessionStatus) (ctx : SessionContext) :
    (Session.construct sid0 now0).status = SessionStatus.Ok ∧
    (Session.close fresh now s (some st)).status = st ∧
    (s.status = SessionStatus.Ok →
      (Session.close fresh now s none).status = SessionStatus.Exited) ∧
    (s.status ≠ SessionStatus.Ok →
      Session.close fresh now s none =
        { s with timestamp := now, duration := (now : Int) - (s.started : Int) }) ∧
    (ctx.status = none → (Session.update fresh now s ctx).status = s.status) := by
  refine ⟨rfl, ?_, ?_, ?_, ?_⟩
  · show (Session.update fresh now s { status := some st }).status = st
    rw [update_status]
  · intro h
    show (Session.close fresh now s none).status = SessionStatus.Exited
    unfold Session.close
    rw [if_pos h, update_status]
  · intro h
    unfold Session.close
    rw [if_neg h]
    rfl
  · intro h
    rw [update_status, h]

/-- Closed witness for C6 at concrete sessions (one still Ok, one crashed)
and a concrete status-free update context. -/
theorem claim_c6_witness :
    (Session.construct ("abc") 7).status = SessionStatus.Ok ∧
    (Session.close ("f") 5 { Session.construct ("x") 3 with status := SessionStatus.Crashed }
      (some SessionStatus.Abnormal)).status = SessionStatus.Abnormal ∧
    (Session.close ("f") 5 (Session.construct ("x") 3) none).status = SessionStatus.Exited ∧
    Session.close ("f") 5 { Session.construct ("x") 3 with status := SessionStatus.Crashed } none =
      { Session.construct ("x") 3 with status := SessionStatus.Crashed, timestamp := 5, duration := (2 : Int) } ∧
    (Session.update ("f") 5 { Session.construct ("x") 3 with status := SessionStatus.Crashed }
      { errors := some 1 }).status = SessionStatus.Crashed := by
  have hok := claim_c6_status_lifecycle ("f") ("abc") 5 7 (Session.construct ("x") 3)
    SessionStatus.Abnormal { errors := some 1 }
  have hcr := claim_c6_status_lifecycle ("f") ("abc") 5 7
    { Session.construct ("x") 3 with status := SessionStatus.Crashed }
    SessionStatus.Abnormal { errors := some 1 }
  refine ⟨hok.1, hcr.2.1, hok.2.2.1 rfl, ?_, hcr.2.2.2.2 rfl⟩
  have h := hcr.2.2.2.1 (by decide)
  rw [h]
  decide

/-- C7 counterexample: an externally supplied empty-string identifier has
length 0 ≠ 32, yet `update` does not replace it with the freshly generated
id — the `if (context.sid)` truthiness guard skips it and the old sid
survives. -/
theorem claim_c7_counterexample :
    ("" : String).length ≠ 32 ∧
    (Session.update ("FRESH") 0 (Session.construct ("OLD") 0)
      { sid := some ("") }).sid = "OLD" ∧
    ("OLD" : String) ≠ "FRESH" := by
  refine ⟨by decide, ?_, by decide⟩
  exact update_sid_empty ("FRESH") 0 (Session.construct ("OLD") 0) { sid := some ("") } rfl

/-- C7 (amended): for every supplied **non-empty** session identifier,
`update` keeps it verbatim when it has exactly 32 characters and replaces it
with a freshly generated id otherwise; a supplied empty-string identifier is
treated as absent and the session's sid is left unchanged. -/
theorem claim_c7_sid_validation (fresh : String) (now : Nat) (s : Session)
    (ctx : SessionContext) (v : String) (hsid : ctx.sid = some v) :
    (v ≠ "" →
      (v.length ≠ 32 → (Session.update fresh now s ctx).sid = fresh) ∧
      (v.length = 32 → (Session.update fresh now s ctx).sid = v)) ∧
    (v = "" → (Session.update fresh now s ctx).sid = s.sid) := by
  constructor
  · intro hv
    constructor
    · intro hlen
      rw [update_sid fresh now s ctx v hsid hv, if_neg hlen]
    · intro hlen
      rw [update_sid fresh now s ctx v hsid hv, if_pos hlen]
  · intro hv
    exact update_sid_empty fresh now s ctx (hv ▸ hsid)

/-- Closed witness for C7's amended statement: a 5-character sid is replaced
by the fresh id, a 32-character sid is preserved. -/
theorem claim_c7_witness :
    (Session.update ("FRESH") 0 (Session.construct ("OLD") 0)
      { sid := some ("short") }).sid = "FRESH" ∧
    (Session.update ("FRESH") 0 (Session.construct ("OLD") 0)
      { sid := some ("0123456789abcdef0123456789abcdef") }).sid =
      "0123456789abcdef0123456789abcdef" := by
  have h1 := claim_c7_sid_validation ("FRESH") 0 (Session.construct ("OLD") 0)
    { sid := some ("short") } ("short") rfl
  have h2 := claim_c7_sid_validation ("FRESH") 0 (Session.construct ("OLD") 0)
    { sid := some ("0123456789abcdef0123456789abcdef") } ("0123456789abcdef0123456789abcdef") rfl
  exact ⟨(h1.1 (by decide)).1 (by decide), (h2.1 (by decide)).2 (by decide)⟩

/-- C10: when an update context carries a user but no did, the did is
recomputed as `user.id || user.email || user.username` — the id when it is
present (non-empty), else the email when present (non-empty), else the
username value; when all three are absent the assignment stores `undefined`,
erasing any previously held did. -/
theorem claim_c10_did_inference (fresh : String) (now : Nat) (s : Session)
    (ctx : SessionContext) (u : User) (hu : ctx.user = some u) (hd : ctx.did = none) :
    (∀ i, u.id = some i → i ≠ "" → (Session.update fresh now s ctx).did = some i) ∧
    (jsTruthyOptStr u.id = false →
      ∀ e, u.email = some e → e ≠ "" → (Session.update fresh now s ctx).did = some e) ∧
    (jsTruthyOptStr u.id = false → jsTruthyOptStr u.email = false →
      (Session.update fresh now s ctx).did = u.username) ∧
    (u.id = none → u.email = none → u.username = none →
      (Session.update fresh now s ctx).did = none) := by
  rw [update_did_fromUser fresh now s ctx u hu hd]
  refine ⟨?_, ?_, ?_, ?_⟩
  · intro i hi hne
    simp [jsOrStr, jsTruthyOptStr, jsTruthyStr, hi, hne]
  · intro h1 e he hne
    simp [jsOrStr, h1]
    simp [jsTruthyOptStr, jsTruthyStr, he, hne]
  · intro h1 h2
    simp [jsOrStr, h1, h2]
  · intro h1 h2 h3
    simp [jsOrStr, jsTruthyOptStr, h1, h2, h3]

/-- Closed witness for C10: the id/email/username priority on concrete
users, and the erasure of a previously held did when the user is empty. -/
theorem claim_c10_witness :
    (Session.update ("f") 0 (Session.construct ("x") 0)
      { user := some { id := some ("I"), email := some ("E") } }).did = some "I" ∧
    (Session.update ("f") 0 (Session.construct ("x") 0)
      { user := some { email := some ("E"), username := some ("U") } }).did = some "E" ∧
    (Session.update ("f") 0 (Session.construct ("x") 0)
      { user := some { username := some ("U") } }).did = some "U" ∧
    (Session.update ("f") 0 { Session.construct ("x") 0 with did := some ("old") }
      { user := some {} }).did = none := by
  have h1 := claim_c10_did_inference ("f") 0 (Session.construct ("x") 0)
    { user := some { id := some ("I"), email := some ("E") } }
    { id := some ("I"), email := some ("E") } rfl rfl
  have h2 := claim_c10_did_inference ("f") 0 (Session.construct ("x") 0)
    { user := some { email := some ("E"), username := some ("U") } }
    { email := some ("E"), username := some ("U") } rfl rfl
  have h3 := claim_c10_did_inference ("f") 0 (Session.construct ("x") 0)
    { user := some { username := some ("U") } } { username := some ("U") } rfl rfl
  have h4 := claim_c10_did_inference ("f") 0
    { Session.construct ("x") 0 with did := some ("old") } { user := some {} } {} rfl rfl
  exact ⟨h1.1 ("I") rfl (by decide), h2.2.1 rfl ("E") rfl (by decide),
    h3.2.2.1 rfl rfl, h4.2.2.2 rfl rfl rfl⟩

/-- C1: every `addSession` call increments exactly one of the four counters
of the matching bucket, chosen by the strict priority Crashed, then
Abnormal, then errors > 0, then exited — independent of how many conditions
hold at once (a Crashed session with errors > 0 bumps only `crashed`);
the bucket's total always grows by exactly one. -/
theorem claim_c1_classification (st : SessionFlusher) (s : Session) :
    ((SessionFlusher.addSession st s).bucketAt (dateSetMinutes0 s.started)).total =
      (st.bucketAt (dateSetMinutes0 s.started)).total + 1 ∧
    cnt ((SessionFlusher.addSession st s).bucketAt (dateSetMinutes0 s.started)).crashed =
      cnt (st.bucketAt (dateSetMinutes0 s.started)).crashed +
        (if s.status = SessionStatus.Crashed then 1 else 0) ∧
    cnt ((SessionFlusher.addSession st s).bucketAt (dateSetMinutes0 s.started)).abnormal =
      cnt (st.bucketAt (dateSetMinutes0 s.started)).abnormal +
        (if s.status = SessionStatus.Abnormal then 1 else 0) ∧
    cnt ((SessionFlusher.addSession st s).bucketAt (dateSetMinutes0 s.started)).errored =
      cnt (st.bucketAt (dateSetMinutes0 s.started)).errored +
        (if s.status ≠ SessionStatus.Crashed ∧ s.status ≠ SessionStatus.Abnormal ∧ 0 < s.errors
         then 1 else 0) ∧
    cnt ((SessionFlusher.addSession st s).bucketAt (dateSetMinutes0 s.started)).exited =
      cnt (st.bucketAt (dateSetMinutes0 s.started)).exited +
        (if s.status ≠ SessionStatus.Crashed ∧ s.status ≠ SessionStatus.Abnormal ∧ s.errors = 0
         then 1 else 0) := by
  have hkey :
      (SessionFlusher.addSession st s).bucketAt (dateSetMinutes0 s.started) =
        classifyInc s (stampStarted (toISOString (dateSetMinutes0 s.started))
          (st.bucketAt (dateSetMinutes0 s.started))) := by
    unfold SessionFlusher.addSession SessionFlusher.bucketAt
    dsimp only
    rw [getKey_setKey_self]
    rfl
  rw [hkey]
  rcases hb0 : st.bucketAt (dateSetMinutes0 s.started) with ⟨bs, be, bx, bc, ba⟩
  unfold classifyInc stampStarted
  dsimp only
  rcases hs : s.status <;> by_cases he : s.errors = 0 <;>
    by_cases hstamp : jsTruthyOptStr bs <;>
      simp [hstamp, he, Nat.pos_iff_ne_zero, jsInc_cnt, AggregationCounts.total] <;> omega

/-- C2: flushing an empty buffer produces no payload and never invokes the
Transport collaborator; a non-empty flush leaves a fresh empty buffer behind
and dispatches the drained contents, so N `addSession` calls followed by one
`flush` dispatch payloads whose counters sum to N, and an immediately
following `flush` with no new `addSession` calls is a no-op. -/
theorem claim_c2_flush_drain (t : Transport) (ht : t.sendSessions = true)
    (sessions : List Session) :
    (∀ st : SessionFlusher, st.pendingAggregates = [] →
      SessionFlusher.flush t st = (st, [])) ∧
    totalSent (SessionFlusher.flush t
      (List.foldl SessionFlusher.addSession (SessionFlusher.construct 10) sessions)).2
      = sessions.length ∧
    (SessionFlusher.flush t
      (List.foldl SessionFlusher.addSession
        (SessionFlusher.construct 10) sessions)).1.pendingAggregates = [] ∧
    SessionFlusher.flush t (SessionFlusher.flush t
      (List.foldl SessionFlusher.addSession (SessionFlusher.construct 10) sessions)).1
      = ((SessionFlusher.flush t
          (List.foldl SessionFlusher.addSession (SessionFlusher.construct 10) sessions)).1,
         []) := by
  have hsorted : keysSorted (SessionFlusher.construct 10).pendingAggregates :=
    List.Pairwise.nil
  obtain ⟨hs, htot⟩ := foldl_addSession_inv sessions (SessionFlusher.construct 10) hsorted
  refine ⟨fun st h => flush_of_empty t st h, ?_, flush_fst_pending t _, ?_⟩
  · rw [flush_totalSent t _ ht, htot]
    have h0 : (SessionFlusher.construct 10).bufferTotal = 0 := rfl
    omega
  · exact flush_of_empty t _ (flush_fst_pending t _)

/-- Closed witness for C2: two sessions added, one flush dispatching a
summed count of two, and a second flush that is a no-op. -/
theorem claim_c2_witness :
    totalSent (SessionFlusher.flush ⟨true⟩
      (List.foldl SessionFlusher.addSession (SessionFlusher.construct 10)
        [Session.construct ("a") 0,
         { Session.construct ("b") 0 with status := SessionStatus.Crashed }])).2 = 2 ∧
    SessionFlusher.flush ⟨true⟩ (SessionFlusher.flush ⟨true⟩
      (List.foldl SessionFlusher.addSession (SessionFlusher.construct 10)
        [Session.construct ("a") 0,
         { Session.construct ("b") 0 with status := SessionStatus.Crashed }])).1
      = ((SessionFlusher.flush ⟨true⟩
          (List.foldl SessionFlusher.addSession (SessionFlusher.construct 10)
            [Session.construct ("a") 0,
             { Session.construct ("b") 0 with status := SessionStatus.Crashed }])).1, []) := by
  have h := claim_c2_flush_drain ⟨true⟩ rfl
    [Session.construct ("a") 0,
     { Session.construct ("b") 0 with status := SessionStatus.Crashed }]
  exact ⟨h.2.1, h.2.2.2⟩

/-- C5: `close` cancels the interval timer exactly once and performs one
synchronous flush; for a flusher that received exactly one `addSession` and
is closed before the timer fires, exactly one payload is dispatched, holding
that session's single counter contribution. -/
theorem claim_c5_close_drains (t : Transport) (ht : t.sendSessions = true) (s : Session) :
    (SessionFlusher.close t
      (SessionFlusher.addSession (SessionFlusher.construct 10) s)).1.timerActive = false ∧
    (SessionFlusher.close t
      (SessionFlusher.addSession (SessionFlusher.construct 10) s)).2.count
        Effect.clearTimer = 1 ∧
    sentPayloads (SessionFlusher.close t
      (SessionFlusher.addSession (SessionFlusher.construct 10) s)).2
      = [{ attrs := some (Session.getSessionAttributes s false),
           aggregates := [classifyInc s
             (stampStarted (toISOString (dateSetMinutes0 s.started)) {})] }] ∧
    totalSent (SessionFlusher.close t
      (SessionFlusher.addSession (SessionFlusher.construct 10) s)).2 = 1 := by
  have hstate : SessionFlusher.addSession (SessionFlusher.construct 10) s =
      { pendingAggregates := [(dateSetMinutes0 s.started,
          classifyInc s (stampStarted (toISOString (dateSetMinutes0 s.started)) {}))],
        sessionAttrs := some (Session.getSessionAttributes s false),
        flushTimeout := 10, timerActive := true } := rfl
  have hclose : SessionFlusher.close t
      (SessionFlusher.addSession (SessionFlusher.construct 10) s)
      = ({ pendingAggregates := [], sessionAttrs := none,
           flushTimeout := 10, timerActive := false },
         [Effect.clearTimer, Effect.sentSessions
           { attrs := some (Session.getSessionAttributes s false),
             aggregates := [classifyInc s
               (stampStarted (toISOString (dateSetMinutes0 s.started)) {})] }]) := by
    rw [hstate]
    unfold SessionFlusher.close SessionFlusher.flush SessionFlusher.sendSessions
    simp [ht]
  rw [hclose]
  refine ⟨rfl, rfl, rfl, ?_⟩
  have hb : (classifyInc s
      (stampStarted (toISOString (dateSetMinutes0 s.started)) {})).total = 1 := by
    rw [classifyInc_total, stampStarted_total]
    rfl
  simp [totalSent, sentPayloads, AggregatedSessions.total, hb]

/-- Closed witness for C5 at a concrete transport and session. -/
theorem claim_c5_witness :
    (SessionFlusher.close ⟨true⟩ (SessionFlusher.addSession (SessionFlusher.construct 10)
      (Session.construct ("w") 0))).1.timerActive = false ∧
    (SessionFlusher.close ⟨true⟩ (SessionFlusher.addSession (SessionFlusher.construct 10)
      (Session.construct ("w") 0))).2.count Effect.clearTimer = 1 ∧
    totalSent (SessionFlusher.close ⟨true⟩
      (SessionFlusher.addSession (SessionFlusher.construct 10)
        (Session.construct ("w") 0))).2 = 1 := by
  have h := claim_c5_close_drains ⟨true⟩ rfl (Session.construct ("w") 0)
  exact ⟨h.1, h.2.1, h.2.2.2⟩

/-- C3: two sessions whose `started` timestamps truncate to the same window
and whose (release, environment) attributes coincide are aggregated in the
same two-level bucket — `addSession` increments the counter total at that
shared address; and two sessions with differing environment values always
produce different top-level attribute-group keys, even with identical
timestamps. -/
theorem claim_c3_bucketing (s1 s2 : Session) :
    (AggSessionFlusher.bucketKey s1 = AggSessionFlusher.bucketKey s2 →
      s1.release = s2.release → s1.environment = s2.environment →
      AggSessionFlusher.attrsKey s1 = AggSessionFlusher.attrsKey s2 ∧
      ∀ st : AggSessionFlusher,
        (AggSessionFlusher.addAggregateSession st s1).totalAt
            (AggSessionFlusher.attrsKey s2) (AggSessionFlusher.bucketKey s2)
          = st.totalAt (AggSessionFlusher.attrsKey s2) (AggSessionFlusher.bucketKey s2) + 1) ∧
    (s1.environment ≠ s2.environment →
      AggSessionFlusher.attrsKey s1 ≠ AggSessionFlusher.attrsKey s2) := by
  constructor
  · intro htr hrel henv
    have hkey : AggSessionFlusher.attrsKey s1 = AggSessionFlusher.attrsKey s2 := by
      rw [attrsKey_eq, attrsKey_eq, hrel, henv]
    refine ⟨hkey, fun st => ?_⟩
    rw [← hkey, ← htr]
    exact addAgg_totalAt_self st s1
  · intro hne heq
    rw [attrsKey_eq, attrsKey_eq] at heq
    rcases h1 : s1.environment with _ | e1 <;> rcases h2 : s2.environment with _ | e2
    · exact hne (h1.trans h2.symm)
    · rw [h1, h2] at heq
      exact stringify_env_presence e2 s2.release s1.release heq.symm
    · rw [h1, h2] at heq
      exact stringify_env_presence e1 s1.release s2.release heq
    · rw [h1, h2] at heq
      have he := stringify_env_inj e1 e2 s1.release s2.release heq
      exact hne (by rw [h1, h2, he])

/-- Closed witness for C3: sessions one minute apart in the same hour with
equal attributes share a bucket; a differing environment splits the
top-level group. -/
theorem claim_c3_witness :
    AggSessionFlusher.attrsKey
      { Session.construct ("a") 0 with release := some ("1.0"), environment := some ("prod"), started := 1615881600000 }
      = AggSessionFlusher.attrsKey
        { Session.construct ("b") 0 with release := some ("1.0"), environment := some ("prod"), started := 1615881660000 } ∧
    (AggSessionFlusher.addAggregateSession AggSessionFlusher.construct
      { Session.construct ("a") 0 with release := some ("1.0"), environment := some ("prod"), started := 1615881600000 }).totalAt
        (AggSessionFlusher.attrsKey
          { Session.construct ("b") 0 with release := some ("1.0"), environment := some ("prod"), started := 1615881660000 })
        (AggSessionFlusher.bucketKey
          { Session.construct ("b") 0 with release := some ("1.0"), environment := some ("prod"), started := 1615881660000 })
      = AggSessionFlusher.construct.totalAt
          (AggSessionFlusher.attrsKey
            { Session.construct ("b") 0 with release := some ("1.0"), environment := some ("prod"), started := 1615881660000 })
          (AggSessionFlusher.bucketKey
            { Session.construct ("b") 0 with release := some ("1.0"), environment := some ("prod"), started := 1615881660000 }) + 1 ∧
    AggSessionFlusher.attrsKey
      { Session.construct ("a") 0 with release := some ("1.0"), environment := some ("prod"), started := 1615881600000 }
      ≠ AggSessionFlusher.attrsKey
        { Session.construct ("a") 0 with release := some ("1.0"), environment := some ("dev"), started := 1615881600000 } := by
  have h12 := claim_c3_bucketing
    { Session.construct ("a") 0 with release := some ("1.0"), environment := some ("prod"), started := 1615881600000 }
    { Session.construct ("b") 0 with release := some ("1.0"), environment := some ("prod"), started := 1615881660000 }
  have h13 := claim_c3_bucketing
    { Session.construct ("a") 0 with release := some ("1.0"), environment := some ("prod"), started := 1615881600000 }
    { Session.construct ("a") 0 with release := some ("1.0"), environment := some ("dev"), started := 1615881600000 }
  obtain ⟨hk, hinc⟩ := h12.1 (by decide) rfl rfl
  exact ⟨hk, hinc AggSessionFlusher.construct, h13.2 (by decide)⟩

/-- C4 counterexample: with a transport lacking `sendSessions`, `flush` on a
non-empty buffer logs the warning and skips the handoff — but the buffer has
already been drained when the capability check runs, so the cycle's
aggregates are discarded, refuting "the aggregate buffer has not yet been
drained at the point the capability check fails". -/
theorem claim_c4_counterexample :
    (SessionFlusher.addSession (SessionFlusher.construct 10)
      (Session.construct ("c") 0)).pendingAggregates ≠ [] ∧
    (SessionFlusher.flush ⟨false⟩ (SessionFlusher.addSession (SessionFlusher.construct 10)
      (Session.construct ("c") 0))).2
      = [Effect.warn ("Dropping session because custom transport doesn't implement sendSession")] ∧
    (SessionFlusher.flush ⟨false⟩ (SessionFlusher.addSession (SessionFlusher.construct 10)
      (Session.construct ("c") 0))).1.pendingAggregates = [] := by
  refine ⟨by decide, rfl, rfl⟩

/-- C4 (amended): when the Transport lacks `sendSessions`, the handoff is
skipped with exactly one logged warning and nothing is dispatched; the
buffer was already drained by `flush` before the check, so the current
cycle's aggregates are discarded — but loss is confined to that cycle: the
fresh buffer aggregates subsequent sessions and a later flush through a
capable transport dispatches them. -/
theorem claim_c4_missing_capability (t t2 : Transport) (hnt : t.sendSessions = false)
    (ht2 : t2.sendSessions = true) (st : SessionFlusher)
    (hne : st.pendingAggregates ≠ []) :
    (SessionFlusher.flush t st).2
      = [Effect.warn ("Dropping session because custom transport doesn't implement sendSession")] ∧
    sentPayloads (SessionFlusher.flush t st).2 = [] ∧
    (SessionFlusher.flush t st).1.pendingAggregates = [] ∧
    ∀ s : Session,
      totalSent (SessionFlusher.flush t2
        (SessionFlusher.addSession (SessionFlusher.flush t st).1 s)).2 = 1 := by
  have heff : (SessionFlusher.flush t st).2
      = [Effect.warn ("Dropping session because custom transport doesn't implement sendSession")] := by
    cases hl : st.pendingAggregates with
    | nil => exact absurd hl hne
    | cons a as =>
      unfold SessionFlusher.flush SessionFlusher.sendSessions
      rw [hl]
      simp [hnt]
  refine ⟨heff, by rw [heff]; rfl, flush_fst_pending t st, ?_⟩
  intro s
  have hpend := flush_fst_pending t st
  have hsort : keysSorted (SessionFlusher.flush t st).1.pendingAggregates := by
    rw [hpend]; exact List.Pairwise.nil
  rw [flush_totalSent t2 _ ht2, addSession_bufferTotal _ s hsort]
  have h0 : (SessionFlusher.flush t st).1.bufferTotal = 0 := by
    unfold SessionFlusher.bufferTotal
    rw [hpend]
    rfl
  omega

/-- Closed witness for C4's amended statement at a concrete buffer,
incapable transport, and follow-up session. -/
theorem claim_c4_witness :
    (SessionFlusher.flush ⟨false⟩ (SessionFlusher.addSession (SessionFlusher.construct 10)
      (Session.construct ("c") 0))).2
      = [Effect.warn ("Dropping session because custom transport doesn't implement sendSession")] ∧
    sentPayloads (SessionFlusher.flush ⟨false⟩
      (SessionFlusher.addSession (SessionFlusher.construct 10)
        (Session.construct ("c") 0))).2 = [] ∧
    (SessionFlusher.flush ⟨false⟩ (SessionFlusher.addSession (SessionFlusher.construct 10)
      (Session.construct ("c") 0))).1.pendingAggregates = [] ∧
    totalSent (SessionFlusher.flush ⟨true⟩ (SessionFlusher.addSession
      (SessionFlusher.flush ⟨false⟩ (SessionFlusher.addSession (SessionFlusher.construct 10)
        (Session.construct ("c") 0))).1 (Session.construct ("d") 0))).2 = 1 := by
  have h := claim_c4_missing_capability ⟨false⟩ ⟨true⟩ rfl rfl
    (SessionFlusher.addSession (SessionFlusher.construct 10) (Session.construct ("c") 0))
    (by decide)
  exact ⟨h.1, h.2.1, h.2.2.1, h.2.2.2 (Session.construct ("d") 0)⟩

/-- C8: the two-level flusher declares the documented
`maxItemsInEnvelope = 100`, but no flush implementation consults it — the
operative flat `flush` packs all drained buckets into a single payload: with
101 hour-buckets pending, one flush dispatches exactly one payload carrying
all 101 aggregates instead of splitting the dispatch. -/
theorem claim_c8_no_envelope_split :
    AggSessionFlusher.construct.maxItemsInEnvelope = 100 ∧
    ((sentPayloads (SessionFlusher.flush ⟨true⟩
        (List.foldl SessionFlusher.addSession (SessionFlusher.construct 10)
          ((List.range 101).map
            fun i => { Session.construct ("x") 0 with started := i * 3600000 }))).2).map
      fun p => p.aggregates.length) = [101] := by
  exact ⟨rfl, rfl⟩

/-- C9: `toJSON` produces the wire record — wire field names (`session_mode`
and, under `attrs`, `ip_address` / `user_agent`), ISO-8601 `started` and
`timestamp`, every absent field omitted entirely (never emitted as `null`),
and the attribute values reproduced unchanged under `attrs`. -/
theorem claim_c9_serialize (s : Session) :
    jlookup (Session.toJSON s) "sid" = some (JVal.str s.sid) ∧
    jlookup (Session.toJSON s) "init" = some (JVal.bool s.init) ∧
    jlookup (Session.toJSON s) "started" = some (JVal.str (toISOString s.started)) ∧
    jlookup (Session.toJSON s) "timestamp" = some (JVal.str (toISOString s.timestamp)) ∧
    jlookup (Session.toJSON s) "status" = some (JVal.str s.status.wire) ∧
    jlookup (Session.toJSON s) "session_mode" = some (JVal.str s.sessionMode.wire) ∧
    jlookup (Session.toJSON s) "errors" = some (JVal.num (s.errors : Int)) ∧
    jlookup (Session.toJSON s) "duration" = some (JVal.num s.duration) ∧
    jlookup (Session.toJSON s) "did" = s.did.map JVal.str ∧
    (∃ la, jlookup (Session.toJSON s) "attrs" = some (JVal.obj la) ∧
      jlookup la "release" = s.release.map JVal.str ∧
      jlookup la "environment" = s.environment.map JVal.str ∧
      jlookup la "ip_address" = s.ipAddress.map JVal.str ∧
      jlookup la "user_agent" = s.userAgent.map JVal.str ∧
      noNulls la = true) ∧
    noNulls (Session.toJSON s) = true := by
  rcases s with ⟨ua, er, rel, sid, did, ts, std, dur, stat, sm, env, ip, ini⟩
  rcases did <;> rcases rel <;> rcases env <;> rcases ip <;> rcases ua <;>
    exact ⟨rfl, rfl, rfl, rfl, rfl, rfl, rfl, rfl, rfl,
      ⟨_, rfl, rfl, rfl, rfl, rfl, rfl⟩, rfl⟩
